import Mathlib

/-!
A verification development for the content-scoring, publish-scheduling,
duplicate-filtering and A/B-testing subsystem of the so.golasso repository.

The Python sources are shallowly embedded: pure functions become Lean
functions, stateful methods become explicit state-passing functions, Python
floats carrying exact decimal constants become rationals (`ℚ`), Python ints
become `ℕ`/`ℤ`, and dict-shaped return values become structures with
`Option` fields for keys that are only sometimes present.
-/

namespace SoGolasso

/-- Content categories, from `ai_writer/content_scorer.py` (`class ContentType`). -/
inductive ContentType where
  | MATCH_RESULT
  | TRANSFER_NEWS
  | TACTICAL_ANALYSIS
  | TEAM_UPDATE
  | RUMOR
deriving DecidableEq, Repr

/-- String value of a `ContentType`, as in the Python enum. -/
def ContentType.value : ContentType → String
  | .MATCH_RESULT => "match_result"
  | .TRANSFER_NEWS => "transfer_news"
  | .TACTICAL_ANALYSIS => "tactical_analysis"
  | .TEAM_UPDATE => "team_update"
  | .RUMOR => "rumor"

/-- Publication buckets, from `content_scorer.py` (`class PublishType`). -/
inductive PublishType where
  | FULL_ARTICLE
  | SUMMARY
  | SOCIAL
  | DISCARD
deriving DecidableEq, Repr

/-- String value of a `PublishType`, as in the Python enum. -/
def PublishType.value : PublishType → String
  | .FULL_ARTICLE => "full_article"
  | .SUMMARY => "summary"
  | .SOCIAL => "social"
  | .DISCARD => "discard"

/-- Part-of-day windows, from `content_scorer.py` (`class TimeSlot`). -/
inductive TimeSlot where
  | MORNING
  | AFTERNOON
  | EVENING
deriving DecidableEq, Repr

/-- String value of a `TimeSlot`, as in the Python enum. -/
def TimeSlot.value : TimeSlot → String
  | .MORNING => "morning"
  | .AFTERNOON => "afternoon"
  | .EVENING => "evening"

/-- Base importance per content type (`ContentScorer.news_importance_scores`). -/
def news_importance_scores : ContentType → ℚ
  | .MATCH_RESULT => 10
  | .TRANSFER_NEWS => 8
  | .TACTICAL_ANALYSIS => 6
  | .TEAM_UPDATE => 4
  | .RUMOR => 2

/-- One tier of `ContentScorer.engagement_thresholds`. -/
structure EngagementTier where
  score : ℚ
  min_engagement : ℕ
deriving DecidableEq, Repr

/-- The "high" engagement tier from `ContentScorer.engagement_thresholds`. -/
def engagement_thresholds_high : EngagementTier := ⟨10, 10000⟩

/-- The "medium" engagement tier from `ContentScorer.engagement_thresholds`. -/
def engagement_thresholds_medium : EngagementTier := ⟨6, 1000⟩

/-- The "low" engagement tier from `ContentScorer.engagement_thresholds`. -/
def engagement_thresholds_low : EngagementTier := ⟨2, 0⟩

/-- The `trending` entry of `ContentScorer.trend_scores`. -/
def trend_scores_trending : ℚ := 10

/-- The `engaging` entry of `ContentScorer.trend_scores`. -/
def trend_scores_engaging : ℚ := 6

/-- The `none` entry of `ContentScorer.trend_scores`. -/
def trend_scores_none : ℚ := 2

/-- Python's `round(x, 1)`.  Every score reachable in this subsystem is an
exact multiple of `1/10` (the weights 0.5/0.3/0.2 applied to the even base
scores yield exact tenths), on which every rounding convention is the
identity, so Mathlib's `round` models it faithfully here. -/
def pyRound1 (x : ℚ) : ℚ := (round (x * 10) : ℤ) / 10

/-- `ContentScorer.get_engagement_score`: tiered lookup on the likes/shares count. -/
def get_engagement_score (engagement_count : ℕ) : ℚ :=
  if engagement_count ≥ engagement_thresholds_high.min_engagement then
    engagement_thresholds_high.score
  else if engagement_count ≥ engagement_thresholds_medium.min_engagement then
    engagement_thresholds_medium.score
  else
    engagement_thresholds_low.score

/-- `ContentScorer.get_trend_score`: trend score from social-media presence flags. -/
def get_trend_score (is_trending : Bool) (has_engagement : Bool) : ℚ :=
  if is_trending then trend_scores_trending
  else if has_engagement then trend_scores_engaging
  else trend_scores_none

/-- `ContentScorer.calculate_content_score`: weighted sum of the three
component scores, rounded to one decimal. -/
def calculate_content_score (content_type : ContentType) (engagement_count : ℕ)
    (is_trending : Bool) (has_engagement : Bool) : ℚ :=
  pyRound1 (news_importance_scores content_type * 0.5 +
    get_engagement_score engagement_count * 0.3 +
    get_trend_score is_trending has_engagement * 0.2)

/-- `ContentScorer.determine_publish_type`: threshold ladder on the score. -/
def determine_publish_type (score : ℚ) : PublishType :=
  if score ≥ 8 then .FULL_ARTICLE
  else if score ≥ 6 then .SUMMARY
  else if score ≥ 4 then .SOCIAL
  else .DISCARD

/-- `ContentScorer.get_optimal_time_slot`: fixed lookup table.  The Python
`dict.get` default (AFTERNOON) is unreachable since the table covers every
`ContentType` member. -/
def get_optimal_time_slot : ContentType → TimeSlot
  | .TACTICAL_ANALYSIS => .MORNING
  | .TRANSFER_NEWS => .MORNING
  | .TEAM_UPDATE => .AFTERNOON
  | .MATCH_RESULT => .EVENING
  | .RUMOR => .AFTERNOON

/-- Start and end hour of a slot's range (`ContentScorer.get_publish_time`'s
`time_ranges` table; only the hours matter for the midpoint rule). -/
def time_ranges : TimeSlot → ℕ × ℕ
  | .MORNING => (8, 12)
  | .AFTERNOON => (12, 18)
  | .EVENING => (18, 23)

/-- `ContentScorer.get_publish_time`: the hour of the published time — the
integer-division midpoint of the slot's start and end hours (minute 0). -/
def get_publish_time (time_slot : TimeSlot) : ℕ :=
  ((time_ranges time_slot).1 + (time_ranges time_slot).2) / 2

/-- Two-digit decimal rendering used by `strftime("%H:%M")`. -/
def twoDigits (n : ℕ) : String :=
  if n < 10 then "0" ++ toString n else toString n

/-- Rendering of a `time(h, 0)` value via `strftime("%H:%M")`. -/
def formatHM (hour : ℕ) : String := twoDigits hour ++ ":" ++ twoDigits 0

/-- The dict returned by `ContentScorer.evaluate_content`.  The Python dict
stores the enum `.value` strings; the enum members are kept here and the
`value` projections recover the strings. -/
structure Evaluation where
  score : ℚ
  publish_type : PublishType
  time_slot : TimeSlot
  publish_time : String
  should_publish : Bool
  format : PublishType
  priority : String
deriving DecidableEq, Repr

/-- `ContentScorer.evaluate_content`: the scorer's sole public entry point,
composing score, publish type, time slot and publish time. -/
def evaluate_content (content_type : ContentType) (engagement_count : ℕ)
    (is_trending : Bool) (has_engagement : Bool) : Evaluation :=
  let score := calculate_content_score content_type engagement_count
    is_trending has_engagement
  let publish_type := determine_publish_type score
  let time_slot := get_optimal_time_slot content_type
  let publish_time := get_publish_time time_slot
  { score := score
    publish_type := publish_type
    time_slot := time_slot
    publish_time := formatHM publish_time
    should_publish := publish_type ≠ .DISCARD
    format := publish_type
    priority := if score ≥ 8 then "high" else if score ≥ 6 then "medium" else "low" }

/-- C1: `calculate_content_score` returns
`round(news_importance*0.5 + engagement_score*0.3 + trend_score*0.2, 1)`
with the tiered engagement score (10 / 6 / 2 at thresholds 10000 / 1000) and
trend score (10 if trending, 6 if engaged, else 2); and `evaluate_content`
on (TRANSFER_NEWS, 1500, False, True) returns score 7.0, publish type
SUMMARY, time slot MORNING, publish time "10:00", priority "medium",
should_publish true. -/
theorem C1_content_score_formula_and_e2e :
    (∀ (ct : ContentType) (ec : ℕ) (tr he : Bool),
      calculate_content_score ct ec tr he =
        pyRound1 (news_importance_scores ct * 0.5 +
          (if ec ≥ 10000 then (10 : ℚ) else if ec ≥ 1000 then 6 else 2) * 0.3 +
          (if tr then (10 : ℚ) else if he then 6 else 2) * 0.2)) ∧
    evaluate_content .TRANSFER_NEWS 1500 false true =
      { score := 7
        publish_type := .SUMMARY
        time_slot := .MORNING
        publish_time := "10:00"
        should_publish := true
        format := .SUMMARY
        priority := "medium" } := by
  refine ⟨fun ct ec tr he => rfl, ?_⟩
  have hscore : calculate_content_score .TRANSFER_NEWS 1500 false true = 7 := by
    unfold calculate_content_score get_engagement_score get_trend_score
      news_importance_scores pyRound1 engagement_thresholds_high
      engagement_thresholds_medium trend_scores_engaging
    norm_num [round_eq]
  unfold evaluate_content
  rw [hscore]
  norm_num [determine_publish_type, get_optimal_time_slot, get_publish_time,
    time_ranges, formatHM, twoDigits]
  exact ⟨by rfl, by decide⟩

/-! Embedding of `ai_writer/content_scheduler.py`.  Wall-clock readings
(`datetime.now().date()` and `datetime.now()`) become explicit `today` /
`now` parameters (`ℕ`-coded day and timestamp); the content payload is kept
as an uninterpreted `String`. -/

/-- A queued piece of content (`class ContentItem`).  `publish_time` keeps
the "HH:MM" string (the Python `strptime`/`strftime` round trip on these
values is the identity). -/
structure ContentItem where
  content : String
  score : ℚ
  publish_time : String
  publish_type : PublishType
  created_at : ℕ
deriving DecidableEq, Repr

/-- `ContentItem.__lt__`: higher score first; among equal scores, earlier
`created_at` first. -/
def ContentItem.lt (a b : ContentItem) : Bool :=
  if a.score == b.score then decide (a.created_at < b.created_at)
  else decide (a.score > b.score)

/-- Python's `heapq.heappush` on one bucket list.  The heap's internal array
layout is not observable through this module; what `heapq` guarantees (and
all the scheduler relies on) is that the heap holds exactly the pushed items
and that `heappop` removes the least one, so the heap is modelled by its
list of elements in push order. -/
def heappush (heap : List ContentItem) (item : ContentItem) : List ContentItem :=
  heap ++ [item]

/-- Helper for `heappop`: scan for the least element (leftmost when neither
of two candidates is `ContentItem.lt`-below the other), returning it and the
remaining elements in their original order. -/
def selectMin (m : ContentItem) : List ContentItem → ContentItem × List ContentItem
  | [] => (m, [])
  | x :: xs =>
    if ContentItem.lt x m then
      ((selectMin x xs).1, m :: (selectMin x xs).2)
    else
      ((selectMin m xs).1, x :: (selectMin m xs).2)

/-- Python's `heapq.heappop` contract: pop and return the smallest item
(w.r.t. `ContentItem.lt`), `none` on the empty heap (the callers in
`PublishQueue` guard emptiness and return `None`). -/
def heappop : List ContentItem → Option (ContentItem × List ContentItem)
  | [] => none
  | x :: xs => some (selectMin x xs)

/-- The three per-publish-type buckets (`class PublishQueue`). -/
structure PublishQueue where
  articles : List ContentItem
  summaries : List ContentItem
  social : List ContentItem
deriving DecidableEq, Repr

/-- A fresh `PublishQueue` (all buckets empty, as in `__init__`). -/
def PublishQueue.empty : PublishQueue := ⟨[], [], []⟩

/-- `PublishQueue.add_content`: push onto the bucket selected by the item's
publish type; the `if`/`elif` chain has no `else`, so a DISCARD item leaves
the queue unchanged. -/
def PublishQueue.add_content (q : PublishQueue) (item : ContentItem) : PublishQueue :=
  match item.publish_type with
  | .FULL_ARTICLE => { q with articles := heappush q.articles item }
  | .SUMMARY => { q with summaries := heappush q.summaries item }
  | .SOCIAL => { q with social := heappush q.social item }
  | .DISCARD => q

/-- `PublishQueue.get_next_article`: pop the highest-priority article. -/
def PublishQueue.get_next_article (q : PublishQueue) :
    Option ContentItem × PublishQueue :=
  match heappop q.articles with
  | none => (none, q)
  | some (m, rest) => (some m, { q with articles := rest })

/-- `PublishQueue.get_next_summary`: pop the highest-priority summary. -/
def PublishQueue.get_next_summary (q : PublishQueue) :
    Option ContentItem × PublishQueue :=
  match heappop q.summaries with
  | none => (none, q)
  | some (m, rest) => (some m, { q with summaries := rest })

/-- `PublishQueue.get_next_social`: pop the highest-priority social post. -/
def PublishQueue.get_next_social (q : PublishQueue) :
    Option ContentItem × PublishQueue :=
  match heappop q.social with
  | none => (none, q)
  | some (m, rest) => (some m, { q with social := rest })

/-- The scheduler's `daily_stats` dict. -/
structure DailyStats where
  articles : ℕ
  summaries : ℕ
  social : ℕ
  date : ℕ
deriving DecidableEq, Repr

/-- State of a `ContentScheduler` (the scorer's two configuration caps are
inlined; the scorer itself is stateless). -/
structure SchedulerState where
  max_daily_articles : ℕ
  max_daily_social : ℕ
  queue : PublishQueue
  daily_stats : DailyStats
deriving DecidableEq, Repr

/-- `ContentScheduler.__init__` at wall-clock day `today`. -/
def mkScheduler (max_daily_articles max_daily_social : ℕ) (today : ℕ) :
    SchedulerState :=
  { max_daily_articles := max_daily_articles
    max_daily_social := max_daily_social
    queue := PublishQueue.empty
    daily_stats := ⟨0, 0, 0, today⟩ }

/-- `ContentScheduler.reset_daily_stats`: zero the counters exactly when the
stored date differs from today's date. -/
def reset_daily_stats (today : ℕ) (s : SchedulerState) : SchedulerState :=
  if s.daily_stats.date ≠ today then
    { s with daily_stats := ⟨0, 0, 0, today⟩ }
  else s

/-- `ContentScheduler.can_publish_more`: reset-if-new-day, then compare the
relevant counter against its cap.  DISCARD matches no branch and falls
through to the final `return False`. -/
def can_publish_more (today : ℕ) (publish_type : PublishType)
    (s : SchedulerState) : Bool × SchedulerState :=
  let s := reset_daily_stats today s
  match publish_type with
  | .FULL_ARTICLE => (decide (s.daily_stats.articles < s.max_daily_articles), s)
  | .SUMMARY => (decide (s.daily_stats.summaries < s.max_daily_articles), s)
  | .SOCIAL => (decide (s.daily_stats.social < s.max_daily_social), s)
  | .DISCARD => (false, s)

/-- The dict returned by `ContentScheduler.schedule_content`; `Option`
fields model the keys present only in one of the two return shapes. -/
structure ScheduleResult where
  scheduled : Bool
  reason : Option String
  evaluation : Option Evaluation
  publish_time : Option String
  content_type : Option String
  publish_type : Option String
  score : Option ℚ
  priority : Option String
deriving DecidableEq, Repr

/-- `ContentScheduler.schedule_content`: evaluate, gate on the daily quota,
then enqueue and count. -/
def schedule_content (today now : ℕ) (content : String)
    (content_type : ContentType) (engagement_count : ℕ)
    (is_trending has_engagement : Bool) (s : SchedulerState) :
    ScheduleResult × SchedulerState :=
  let evaluation := evaluate_content content_type engagement_count
    is_trending has_engagement
  let publish_type := evaluation.publish_type
  let r := can_publish_more today publish_type s
  if !r.1 then
    ({ scheduled := false
       reason := some "Daily limit reached for this content type"
       evaluation := some evaluation
       publish_time := none, content_type := none, publish_type := none
       score := none, priority := none }, r.2)
  else
    let content_item : ContentItem :=
      { content := content
        score := evaluation.score
        publish_time := evaluation.publish_time
        publish_type := publish_type
        created_at := now }
    let s₁ := { r.2 with queue := r.2.queue.add_content content_item }
    let s₂ := { s₁ with daily_stats :=
      match publish_type with
      | .FULL_ARTICLE => { s₁.daily_stats with articles := s₁.daily_stats.articles + 1 }
      | .SUMMARY => { s₁.daily_stats with summaries := s₁.daily_stats.summaries + 1 }
      | .SOCIAL => { s₁.daily_stats with social := s₁.daily_stats.social + 1 }
      | .DISCARD => s₁.daily_stats }
    ({ scheduled := true
       reason := none, evaluation := none
       publish_time := some evaluation.publish_time
       content_type := some content_type.value
       publish_type := some publish_type.value
       score := some evaluation.score
       priority := some evaluation.priority }, s₂)

/-- One entry of the dict returned by `get_publishing_schedule`. -/
structure ScheduleEntry where
  time : String
  score : ℚ
  content : String
deriving DecidableEq, Repr

/-- Projection of a queued item into a schedule entry. -/
def entryOf (i : ContentItem) : ScheduleEntry := ⟨i.publish_time, i.score, i.content⟩

/-- The dict returned by `get_publishing_schedule`. -/
structure PublishingSchedule where
  articles : List ScheduleEntry
  summaries : List ScheduleEntry
  social : List ScheduleEntry
deriving DecidableEq, Repr

/-- One `while True: ... heappop ... if not item: break` drain loop over a
bucket, with fuel; called with fuel = the bucket's length, which is exactly
when the loop exits by exhaustion (each pop removes one element).  Returns
the popped items in pop order together with the remaining bucket. -/
def drainLoopAux : ℕ → List ContentItem → List ContentItem × List ContentItem
  | 0, l => ([], l)
  | fuel + 1, l =>
    match heappop l with
    | none => ([], l)
    | some (m, rest) =>
      ((drainLoopAux fuel rest).1.cons m, (drainLoopAux fuel rest).2)

/-- The drain loop of `get_publishing_schedule` on one bucket. -/
def drainLoop (l : List ContentItem) : List ContentItem × List ContentItem :=
  drainLoopAux l.length l

/-- `ContentScheduler.get_publishing_schedule`: drain all three buckets into
entry lists; the queue is left empty and `daily_stats` is untouched. -/
def get_publishing_schedule (s : SchedulerState) :
    PublishingSchedule × SchedulerState :=
  let a := drainLoop s.queue.articles
  let b := drainLoop s.queue.summaries
  let c := drainLoop s.queue.social
  ({ articles := a.1.map entryOf
     summaries := b.1.map entryOf
     social := c.1.map entryOf },
   { s with queue := ⟨a.2, b.2, c.2⟩ })

/-- Removing the selected minimum keeps the number of remaining elements. -/
theorem selectMin_snd_length (m : ContentItem) (l : List ContentItem) :
    (selectMin m l).2.length = l.length := by
  induction l generalizing m with
  | nil => rfl
  | cons x xs ih =>
    unfold selectMin
    by_cases h : ContentItem.lt x m
    · simp [h, ih]
    · simp [h, ih]

/-- With fuel at least the bucket's length, the drain loop empties it. -/
theorem drainLoopAux_snd (fuel : ℕ) (l : List ContentItem)
    (h : l.length ≤ fuel) : (drainLoopAux fuel l).2 = [] := by
  induction fuel generalizing l with
  | zero =>
    cases l with
    | nil => rfl
    | cons x xs => simp at h
  | succ n ih =>
    cases l with
    | nil => rfl
    | cons x xs =>
      unfold drainLoopAux heappop
      have hlen : (selectMin x xs).2.length ≤ n := by
        rw [selectMin_snd_length]
        simpa using h
      simpa using ih _ hlen

/-- The drain loop leaves an empty bucket behind. -/
theorem drainLoop_snd (l : List ContentItem) : (drainLoop l).2 = [] :=
  drainLoopAux_snd l.length l le_rfl

/-- Draining the empty bucket yields nothing. -/
theorem drainLoop_nil : drainLoop [] = ([], []) := rfl

/-- C5: `get_publishing_schedule` is a destructive read — after one call the
three queues are empty, so an immediately following call returns the empty
schedule, and `daily_stats` (counters and date) is unchanged by retrieval. -/
theorem C5_get_publishing_schedule_destructive (s : SchedulerState) :
    (get_publishing_schedule s).2.queue = PublishQueue.empty ∧
    (get_publishing_schedule s).2.daily_stats = s.daily_stats ∧
    (get_publishing_schedule (get_publishing_schedule s).2).1 =
      { articles := [], summaries := [], social := [] } := by
  refine ⟨?_, rfl, ?_⟩
  · simp [get_publishing_schedule, drainLoop_snd, PublishQueue.empty]
  · simp [get_publishing_schedule, drainLoop_snd, drainLoop_nil]

/-- Iterated submission of one and the same item (`schedule_content` applied
`n` times), keeping only the evolving scheduler state. -/
def scheduleIter (today now : ℕ) (content : String) (ct : ContentType)
    (ec : ℕ) (tr he : Bool) : ℕ → SchedulerState → SchedulerState
  | 0, s => s
  | n + 1, s => scheduleIter today now content ct ec tr he n
      (schedule_content today now content ct ec tr he s).2

/-- The item constructed by a successful `schedule_content` call. -/
def itemOf (now : ℕ) (content : String) (ct : ContentType) (ec : ℕ)
    (tr he : Bool) : ContentItem :=
  { content := content
    score := (evaluate_content ct ec tr he).score
    publish_time := (evaluate_content ct ec tr he).publish_time
    publish_type := (evaluate_content ct ec tr he).publish_type
    created_at := now }

/-- A FULL_ARTICLE submission on a day matching the stored date succeeds
while the article counter is below the cap: the item is pushed and the
counter incremented. -/
theorem schedule_content_full_success (today now : ℕ) (content : String)
    (ct : ContentType) (ec : ℕ) (tr he : Bool) (s : SchedulerState)
    (hf : (evaluate_content ct ec tr he).publish_type = .FULL_ARTICLE)
    (hd : s.daily_stats.date = today)
    (hlt : s.daily_stats.articles < s.max_daily_articles) :
    schedule_content today now content ct ec tr he s =
      ({ scheduled := true
         reason := none, evaluation := none
         publish_time := some (evaluate_content ct ec tr he).publish_time
         content_type := some ct.value
         publish_type := some PublishType.FULL_ARTICLE.value
         score := some (evaluate_content ct ec tr he).score
         priority := some (evaluate_content ct ec tr he).priority },
       { s with
         queue := { s.queue with
           articles := heappush s.queue.articles (itemOf now content ct ec tr he) }
         daily_stats := { s.daily_stats with
           articles := s.daily_stats.articles + 1 } }) := by
  simp [schedule_content, can_publish_more, reset_daily_stats, hd, hlt, hf,
    PublishQueue.add_content, itemOf]

/-- A FULL_ARTICLE submission on a day matching the stored date is rejected
without any state change once the article counter has reached the cap. -/
theorem schedule_content_full_reject (today now : ℕ) (content : String)
    (ct : ContentType) (ec : ℕ) (tr he : Bool) (s : SchedulerState)
    (hf : (evaluate_content ct ec tr he).publish_type = .FULL_ARTICLE)
    (hd : s.daily_stats.date = today)
    (hge : ¬ s.daily_stats.articles < s.max_daily_articles) :
    schedule_content today now content ct ec tr he s =
      ({ scheduled := false
         reason := some "Daily limit reached for this content type"
         evaluation := some (evaluate_content ct ec tr he)
         publish_time := none, content_type := none, publish_type := none
         score := none, priority := none }, s) := by
  simp [schedule_content, can_publish_more, reset_daily_stats, hd, hge, hf]

/-- State reached after `k ≤ max_daily_articles` same-day FULL_ARTICLE
submissions into a fresh scheduler: `k` queued copies and counter `k`. -/
theorem scheduleIter_full_state (maxA maxS d now : ℕ) (content : String)
    (ct : ContentType) (ec : ℕ) (tr he : Bool)
    (hf : (evaluate_content ct ec tr he).publish_type = .FULL_ARTICLE) :
    ∀ k, k ≤ maxA →
      scheduleIter d now content ct ec tr he k (mkScheduler maxA maxS d) =
        { max_daily_articles := maxA
          max_daily_social := maxS
          queue := ⟨List.replicate k (itemOf now content ct ec tr he), [], []⟩
          daily_stats := ⟨k, 0, 0, d⟩ } := by
  have step : ∀ (k : ℕ) (s : SchedulerState),
      scheduleIter d now content ct ec tr he (k + 1) s =
        scheduleIter d now content ct ec tr he k
          (schedule_content d now content ct ec tr he s).2 := fun k s => rfl
  intro k
  induction k with
  | zero =>
    intro _
    simp [scheduleIter, mkScheduler, PublishQueue.empty]
  | succ n ih =>
    intro hle
    have hn : n ≤ maxA := Nat.le_of_succ_le hle
    -- unroll the iteration from the far end:
    -- iter (n+1) s₀ = iter n (step s₀) would recurse on the wrong side,
    -- so instead show iter (n+1) s₀ = step (iter n s₀) first.
    have unroll : ∀ (m : ℕ) (s : SchedulerState),
        scheduleIter d now content ct ec tr he (m + 1) s =
          (schedule_content d now content ct ec tr he
            (scheduleIter d now content ct ec tr he m s)).2 := by
      intro m
      induction m with
      | zero => intro s; rfl
      | succ p ihp =>
        intro s
        rw [step, ihp, step]
    rw [unroll, ih hn]
    rw [schedule_content_full_success d now content ct ec tr he _ hf rfl
      (by simpa using Nat.lt_of_succ_le hle)]
    simp [heappush, itemOf, List.replicate_succ']

/-- C2 (amended with the cap being positive): on a fresh scheduler, every
one of the first `max_daily_articles` same-day FULL_ARTICLE submissions
succeeds; the submission after them is rejected with a reason string and
leaves the state (queues and counters) unchanged; and once the calendar
date differs (the daily counters are reset to zero), the same submission
succeeds — provided `max_daily_articles ≥ 1`. -/
theorem C2_daily_quota_enforcement (maxA maxS d dNext now : ℕ)
    (content : String) (ct : ContentType) (ec : ℕ) (tr he : Bool)
    (hf : (evaluate_content ct ec tr he).publish_type = .FULL_ARTICLE)
    (hpos : 0 < maxA) (hroll : dNext ≠ d) :
    (∀ k, k < maxA →
      (schedule_content d now content ct ec tr he
        (scheduleIter d now content ct ec tr he k
          (mkScheduler maxA maxS d))).1.scheduled = true) ∧
    (schedule_content d now content ct ec tr he
      (scheduleIter d now content ct ec tr he maxA
        (mkScheduler maxA maxS d))).1 =
      { scheduled := false
        reason := some "Daily limit reached for this content type"
        evaluation := some (evaluate_content ct ec tr he)
        publish_time := none, content_type := none, publish_type := none
        score := none, priority := none } ∧
    (schedule_content d now content ct ec tr he
      (scheduleIter d now content ct ec tr he maxA
        (mkScheduler maxA maxS d))).2 =
      scheduleIter d now content ct ec tr he maxA (mkScheduler maxA maxS d) ∧
    (schedule_content dNext now content ct ec tr he
      (scheduleIter d now content ct ec tr he maxA
        (mkScheduler maxA maxS d))).1.scheduled = true := by
  have hmax := scheduleIter_full_state maxA maxS d now content ct ec tr he hf
  refine ⟨?_, ?_, ?_, ?_⟩
  · intro k hk
    rw [hmax k (Nat.le_of_lt hk),
      schedule_content_full_success d now content ct ec tr he _ hf rfl
        (by simpa using hk)]
  · rw [hmax maxA le_rfl,
      schedule_content_full_reject d now content ct ec tr he _ hf rfl
        (by simp)]
  · rw [hmax maxA le_rfl,
      schedule_content_full_reject d now content ct ec tr he _ hf rfl
        (by simp)]
  · rw [hmax maxA le_rfl]
    simp [schedule_content, can_publish_more, reset_daily_stats, hroll.symm, hf,
      hpos]

/-- The flagship FULL_ARTICLE input: a trending MATCH_RESULT with 15000
engagements evaluates to score 10. -/
theorem evaluate_match_result_full :
    evaluate_content .MATCH_RESULT 15000 true true =
      { score := 10
        publish_type := .FULL_ARTICLE
        time_slot := .EVENING
        publish_time := "20:00"
        should_publish := true
        format := .FULL_ARTICLE
        priority := "high" } := by
  have hscore : calculate_content_score .MATCH_RESULT 15000 true true = 10 := by
    unfold calculate_content_score get_engagement_score get_trend_score
      news_importance_scores pyRound1 engagement_thresholds_high
      trend_scores_trending
    norm_num [round_eq]
  unfold evaluate_content
  rw [hscore]
  norm_num [determine_publish_type, get_optimal_time_slot, get_publish_time,
    time_ranges, formatHM, twoDigits]
  exact ⟨by rfl, by decide⟩

/-- C2 witness: the amended theorem applied at cap 2, a trending
MATCH_RESULT input, day 0 rolling over to day 1. -/
theorem C2_daily_quota_enforcement_witness :
    (evaluate_content .MATCH_RESULT 15000 true true).publish_type =
      .FULL_ARTICLE ∧
    (schedule_content 1 7 "body" .MATCH_RESULT 15000 true true
      (scheduleIter 0 7 "body" .MATCH_RESULT 15000 true true 2
        (mkScheduler 2 5 0))).1.scheduled = true := by
  have hf : (evaluate_content .MATCH_RESULT 15000 true true).publish_type =
      .FULL_ARTICLE := by rw [evaluate_match_result_full]
  exact ⟨hf, (C2_daily_quota_enforcement 2 5 0 1 7 "body" .MATCH_RESULT
    15000 true true hf (by decide) (by decide)).2.2.2⟩

/-- C2 counterexample to the claim as stated: with `max_daily_articles = 0`
(a legal constructor argument), after all zero successful FULL_ARTICLE
schedulings and a calendar-date rollover from day 0 to day 1, the same
FULL_ARTICLE submission is still rejected, not accepted. -/
theorem C2_counterexample_zero_cap :
    (evaluate_content .MATCH_RESULT 15000 true true).publish_type =
      .FULL_ARTICLE ∧
    (schedule_content 1 7 "body" .MATCH_RESULT 15000 true true
      (mkScheduler 0 5 0)).1.scheduled = false := by
  have hf : (evaluate_content .MATCH_RESULT 15000 true true).publish_type =
      .FULL_ARTICLE := by rw [evaluate_match_result_full]
  refine ⟨hf, ?_⟩
  simp [schedule_content, can_publish_more, reset_daily_stats, mkScheduler, hf]

/-- C6: a submission whose evaluated score is below 4 is classified DISCARD,
is rejected with the quota reason string, is never pushed onto any queue,
and increments no daily counter — because `can_publish_more` returns `False`
for DISCARD via the fallthrough branch. -/
theorem C6_discard_never_enqueued (today now : ℕ) (content : String)
    (ct : ContentType) (ec : ℕ) (tr he : Bool) (s : SchedulerState)
    (hlow : calculate_content_score ct ec tr he < 4) :
    (∀ (today' : ℕ) (s' : SchedulerState),
      (can_publish_more today' .DISCARD s').1 = false) ∧
    (evaluate_content ct ec tr he).publish_type = .DISCARD ∧
    (schedule_content today now content ct ec tr he s).1.scheduled = false ∧
    (schedule_content today now content ct ec tr he s).1.reason =
      some "Daily limit reached for this content type" ∧
    (schedule_content today now content ct ec tr he s).2.queue = s.queue ∧
    (schedule_content today now content ct ec tr he s).2.daily_stats.articles
      ≤ s.daily_stats.articles ∧
    (schedule_content today now content ct ec tr he s).2.daily_stats.summaries
      ≤ s.daily_stats.summaries ∧
    (schedule_content today now content ct ec tr he s).2.daily_stats.social
      ≤ s.daily_stats.social := by
  have hfall : ∀ (today' : ℕ) (s' : SchedulerState),
      (can_publish_more today' .DISCARD s').1 = false := by
    intro today' s'
    simp [can_publish_more]
  have hpt : (evaluate_content ct ec tr he).publish_type = .DISCARD := by
    have h8 : ¬ (calculate_content_score ct ec tr he ≥ 8) := by linarith
    have h6 : ¬ (calculate_content_score ct ec tr he ≥ 6) := by linarith
    have h4 : ¬ (calculate_content_score ct ec tr he ≥ 4) := by linarith
    simp [evaluate_content, determine_publish_type, h8, h6, h4]
  have hsched : schedule_content today now content ct ec tr he s =
      ({ scheduled := false
         reason := some "Daily limit reached for this content type"
         evaluation := some (evaluate_content ct ec tr he)
         publish_time := none, content_type := none, publish_type := none
         score := none, priority := none }, reset_daily_stats today s) := by
    simp [schedule_content, can_publish_more, hpt]
  refine ⟨hfall, hpt, ?_, ?_, ?_, ?_, ?_, ?_⟩ <;> rw [hsched] <;>
    simp [reset_daily_stats] <;> split <;> simp

/-- C6 witness: a non-trending RUMOR with zero engagement scores 2.0 and is
dropped by a fresh scheduler. -/
theorem C6_discard_never_enqueued_witness :
    calculate_content_score .RUMOR 0 false false < 4 ∧
    (schedule_content 0 0 "body" .RUMOR 0 false false
      (mkScheduler 10 5 0)).1.scheduled = false := by
  have hlow : calculate_content_score .RUMOR 0 false false < 4 := by
    unfold calculate_content_score get_engagement_score get_trend_score
      news_importance_scores pyRound1 engagement_thresholds_high
      engagement_thresholds_medium engagement_thresholds_low trend_scores_none
    norm_num [round_eq]
  exact ⟨hlow, (C6_discard_never_enqueued 0 0 "body" .RUMOR 0 false false
    (mkScheduler 10 5 0) hlow).2.2.1⟩

/-- Unfolding of `ContentItem.lt` into its ordering meaning: strictly higher
score, or equal score and strictly earlier creation. -/
theorem item_lt_eq_true_iff (a b : ContentItem) :
    ContentItem.lt a b = true ↔
      (b.score < a.score ∨ (a.score = b.score ∧ a.created_at < b.created_at)) := by
  unfold ContentItem.lt
  by_cases h : a.score = b.score
  · rw [h]
    simp
  · simp [h, beq_iff_eq]

/-- Negation of `ContentItem.lt`: not strictly before means lower-or-equal
score and, at equal scores, a later-or-equal creation stamp. -/
theorem item_lt_eq_false_iff (a b : ContentItem) :
    ContentItem.lt a b = false ↔
      (a.score ≤ b.score ∧ (a.score = b.score → b.created_at ≤ a.created_at)) := by
  rw [← Bool.not_eq_true, item_lt_eq_true_iff]
  push_neg
  tauto

/-- Transitivity of the item order. -/
theorem item_lt_trans {a b c : ContentItem} (h1 : ContentItem.lt a b = true)
    (h2 : ContentItem.lt b c = true) : ContentItem.lt a c = true := by
  rw [item_lt_eq_true_iff] at h1 h2 ⊢
  rcases h1 with h1 | ⟨he1, hc1⟩ <;> rcases h2 with h2 | ⟨he2, hc2⟩
  · exact Or.inl (lt_trans h2 h1)
  · exact Or.inl (he2 ▸ h1)
  · exact Or.inl (he1 ▸ h2)
  · exact Or.inr ⟨he1.trans he2, lt_trans hc1 hc2⟩

/-- Negative transitivity of the item order. -/
theorem item_lt_negtrans {a b c : ContentItem}
    (h1 : ContentItem.lt a b = false) (h2 : ContentItem.lt b c = false) :
    ContentItem.lt a c = false := by
  rw [item_lt_eq_false_iff] at h1 h2 ⊢
  refine ⟨le_trans h1.1 h2.1, fun he => ?_⟩
  have hba : b.score ≤ a.score := by rw [he]; exact h2.1
  have hab : a.score = b.score := le_antisymm h1.1 hba
  have hbc : b.score = c.score := by rw [← hab, he]
  exact le_trans (h2.2 hbc) (h1.2 hab)

/-- Totality on items with distinct creation stamps: if `a` is not strictly
before `b` and the stamps differ, then `b` is strictly before `a`. -/
theorem item_lt_total {a b : ContentItem} (h : ContentItem.lt a b = false)
    (hne : a.created_at ≠ b.created_at) : ContentItem.lt b a = true := by
  rw [item_lt_eq_false_iff] at h
  rw [item_lt_eq_true_iff]
  rcases lt_or_eq_of_le h.1 with hlt | heq
  · exact Or.inl hlt
  · exact Or.inr ⟨heq.symm, lt_of_le_of_ne (h.2 heq) (Ne.symm hne)⟩

/-- The selected minimum together with the remaining elements is a
permutation of the scanned elements. -/
theorem selectMin_perm (m : ContentItem) (l : List ContentItem) :
    ((selectMin m l).1 :: (selectMin m l).2).Perm (m :: l) := by
  induction l generalizing m with
  | nil => exact List.Perm.refl _
  | cons x xs ih =>
    unfold selectMin
    by_cases h : ContentItem.lt x m
    · rw [if_pos h]
      exact (List.Perm.swap m (selectMin x xs).1 _).trans ((ih x).cons m)
    · rw [if_neg h]
      exact (List.Perm.swap x (selectMin m xs).1 _).trans
        (((ih m).cons x).trans (List.Perm.swap m x xs))

/-- No scanned element is strictly below the selected minimum. -/
theorem selectMin_min (m : ContentItem) (l : List ContentItem) :
    ∀ y, (y = m ∨ y ∈ l) → ContentItem.lt y (selectMin m l).1 = false := by
  induction l generalizing m with
  | nil =>
    rintro y (rfl | hy)
    · unfold selectMin
      simp [ContentItem.lt]
    · simp at hy
  | cons x xs ih =>
    rintro y hy
    unfold selectMin
    by_cases h : ContentItem.lt x m
    · rw [if_pos h]
      rcases hy with rfl | hy
      · -- y = m: m is not below the minimum of x :: xs since x is below m
        have hx : ContentItem.lt x (selectMin x xs).1 = false :=
          ih x x (Or.inl rfl)
        by_contra hcon
        rw [Bool.not_eq_false] at hcon
        have := item_lt_trans h hcon
        rw [hx] at this
        exact Bool.false_ne_true this
      · rcases List.mem_cons.mp hy with rfl | hy
        · exact ih y y (Or.inl rfl)
        · exact ih x y (Or.inr hy)
    · rw [if_neg h]
      rcases hy with rfl | hy
      · exact ih y y (Or.inl rfl)
      · rcases List.mem_cons.mp hy with rfl | hy
        · -- y = x: not below m, and m not below the minimum of m :: xs
          have hm : ContentItem.lt m (selectMin m xs).1 = false :=
            ih m m (Or.inl rfl)
          exact item_lt_negtrans (Bool.of_not_eq_true h) hm
        · exact ih m y (Or.inr hy)

/-- With enough fuel the drain loop emits a permutation of the bucket. -/
theorem drainLoopAux_perm (fuel : ℕ) :
    ∀ l : List ContentItem, l.length ≤ fuel →
      ((drainLoopAux fuel l).1).Perm l := by
  induction fuel with
  | zero =>
    intro l h
    rw [List.length_eq_zero.mp (Nat.le_zero.mp h)]
    exact List.Perm.refl _
  | succ n ih =>
    intro l h
    cases l with
    | nil => exact List.Perm.refl _
    | cons x xs =>
      unfold drainLoopAux heappop
      simp only
      have hlen : (selectMin x xs).2.length ≤ n := by
        rw [selectMin_snd_length]
        simpa using h
      exact ((ih _ hlen).cons (selectMin x xs).1).trans (selectMin_perm x xs)

/-- With enough fuel, on a bucket whose creation stamps are pairwise
distinct, the drain loop emits the items in strictly descending
`ContentItem.lt` order. -/
theorem drainLoopAux_sorted (fuel : ℕ) :
    ∀ l : List ContentItem, l.length ≤ fuel →
      l.Pairwise (fun a b => a.created_at ≠ b.created_at) →
      ((drainLoopAux fuel l).1).Pairwise
        (fun a b => ContentItem.lt a b = true) := by
  induction fuel with
  | zero =>
    intro l h _
    rw [List.length_eq_zero.mp (Nat.le_zero.mp h)]
    exact List.Pairwise.nil
  | succ n ih =>
    intro l h hdist
    cases l with
    | nil => exact List.Pairwise.nil
    | cons x xs =>
      unfold drainLoopAux heappop
      simp only
      have hlen : (selectMin x xs).2.length ≤ n := by
        rw [selectMin_snd_length]
        simpa using h
      have hperm : ((selectMin x xs).1 :: (selectMin x xs).2).Perm (x :: xs) :=
        selectMin_perm x xs
      have hdist' : ((selectMin x xs).1 :: (selectMin x xs).2).Pairwise
          (fun a b => a.created_at ≠ b.created_at) :=
        (hperm.pairwise_iff (fun {a b} h => Ne.symm h)).mpr hdist
      refine List.Pairwise.cons ?_ (ih _ hlen (List.Pairwise.of_cons hdist'))
      intro y hy
      have hyrest : y ∈ (selectMin x xs).2 :=
        (drainLoopAux_perm n _ hlen).mem_iff.mp hy
      have hymem : y = x ∨ y ∈ xs := by
        have := hperm.mem_iff.mp (List.mem_cons_of_mem _ hyrest)
        simpa using this
      have hmin : ContentItem.lt y (selectMin x xs).1 = false :=
        selectMin_min x xs y (hymem.imp_left id)
      have hne : (selectMin x xs).1.created_at ≠ y.created_at :=
        (List.pairwise_cons.mp hdist').1 y hyrest
      exact item_lt_total hmin (Ne.symm hne)

/-- Folding `heappush` over a batch starting from a given heap appends the
batch in push order. -/
theorem foldl_heappush (l : List ContentItem) :
    ∀ acc : List ContentItem, l.foldl heappush acc = acc ++ l := by
  induction l with
  | nil => intro acc; simp
  | cons x xs ih =>
    intro acc
    simp [List.foldl_cons, heappush, ih]

/-- Folding `add_content` over FULL_ARTICLE items appends them to the
articles bucket and leaves the other buckets alone. -/
theorem foldl_add_content_articles (items : List ContentItem) :
    ∀ q : PublishQueue, (∀ i ∈ items, i.publish_type = .FULL_ARTICLE) →
      items.foldl PublishQueue.add_content q =
        { q with articles := q.articles ++ items } := by
  induction items with
  | nil => intro q _; simp
  | cons x xs ih =>
    intro q hfull
    have hx : x.publish_type = .FULL_ARTICLE := hfull x (List.mem_cons_self x xs)
    rw [List.foldl_cons, ih _ (fun i hi => hfull i (List.mem_cons_of_mem x hi))]
    simp [PublishQueue.add_content, hx, heappush]

/-- C3: when FULL_ARTICLE items with strictly increasing `created_at` are
pushed into the articles bucket of an empty `PublishQueue`, draining that
bucket yields a permutation of the pushed items in which every later item
has a strictly lower score, or an equal score and a strictly later
`created_at` — i.e. descending score order with FIFO order among equal
scores. -/
theorem C3_queue_drain_order (items : List ContentItem)
    (hfull : ∀ i ∈ items, i.publish_type = .FULL_ARTICLE)
    (hinc : items.Pairwise (fun a b => a.created_at < b.created_at)) :
    ((drainLoop ((items.foldl PublishQueue.add_content
        PublishQueue.empty).articles)).1).Perm items ∧
    ((drainLoop ((items.foldl PublishQueue.add_content
        PublishQueue.empty).articles)).1).Pairwise
      (fun a b => b.score < a.score ∨
        (a.score = b.score ∧ a.created_at < b.created_at)) := by
  have hq : (items.foldl PublishQueue.add_content PublishQueue.empty).articles
      = items := by
    rw [foldl_add_content_articles items PublishQueue.empty hfull]
    simp [PublishQueue.empty]
  rw [hq]
  have hdist : items.Pairwise (fun a b => a.created_at ≠ b.created_at) :=
    hinc.imp Nat.ne_of_lt
  refine ⟨drainLoopAux_perm items.length items le_rfl, ?_⟩
  have := drainLoopAux_sorted items.length items le_rfl hdist
  exact this.imp (fun h => (item_lt_eq_true_iff _ _).mp h)

/-- C3 witness: the spec's P3 scenario — scores 5, 9, 9, 3 pushed with
increasing creation stamps. -/
theorem C3_queue_drain_order_witness :
    (∀ i ∈ [ContentItem.mk "a" 5 "20:00" .FULL_ARTICLE 0,
            ContentItem.mk "b" 9 "20:00" .FULL_ARTICLE 1,
            ContentItem.mk "c" 9 "20:00" .FULL_ARTICLE 2,
            ContentItem.mk "d" 3 "20:00" .FULL_ARTICLE 3],
        i.publish_type = .FULL_ARTICLE) ∧
    ([ContentItem.mk "a" 5 "20:00" .FULL_ARTICLE 0,
      ContentItem.mk "b" 9 "20:00" .FULL_ARTICLE 1,
      ContentItem.mk "c" 9 "20:00" .FULL_ARTICLE 2,
      ContentItem.mk "d" 3 "20:00" .FULL_ARTICLE 3].Pairwise
        (fun a b => a.created_at < b.created_at)) ∧
    (((drainLoop (([ContentItem.mk "a" 5 "20:00" .FULL_ARTICLE 0,
        ContentItem.mk "b" 9 "20:00" .FULL_ARTICLE 1,
        ContentItem.mk "c" 9 "20:00" .FULL_ARTICLE 2,
        ContentItem.mk "d" 3 "20:00" .FULL_ARTICLE 3].foldl
          PublishQueue.add_content PublishQueue.empty).articles)).1).Pairwise
      (fun a b => b.score < a.score ∨
        (a.score = b.score ∧ a.created_at < b.created_at))) :=
  ⟨by simp, by decide,
    (C3_queue_drain_order _ (by simp) (by decide)).2⟩

/-! Embedding of `ScrapingScheduler._filter_duplicate_content` from
`backend/app/core/scraping_scheduler.py`. -/

/-- A raw scraped item as seen by the duplicate filter: its title (an item
without a `title` key contributes `""` via `item.get('title','')`) and the
rest of the payload, uninterpreted. -/
structure ScrapedItem where
  title : String
  content : String
deriving DecidableEq, Repr

/-- Python's `str.lower()`; the titles this system handles are ASCII, where
`Char.toLower` agrees with Python. -/
def pyLower (s : String) : String := ⟨s.data.map Char.toLower⟩

/-- Python's substring test `small in big` on strings: a contiguous
occurrence. -/
def pyIn (small big : String) : Bool := decide (small.data <:+: big.data)

/-- The generator condition of the filter:
`any(title in seen_title or seen_title in title for seen_title in seen_titles)`. -/
def dup_check (seen_titles : List String) (title : String) : Bool :=
  seen_titles.any (fun seen_title =>
    pyIn title seen_title || pyIn seen_title title)

/-- The loop of `_filter_duplicate_content`, with the accumulated
`seen_titles` explicit (the Python `set` is modelled as the list of titles
added so far; only `any`-membership queries are made against it). -/
def filter_duplicate_go : List ScrapedItem → List String → List ScrapedItem
  | [], _ => []
  | item :: rest, seen_titles =>
    let title := pyLower item.title
    if !(dup_check seen_titles title) then
      item :: filter_duplicate_go rest (title :: seen_titles)
    else
      filter_duplicate_go rest seen_titles

/-- `ScrapingScheduler._filter_duplicate_content`: drop any item whose
lowercased title contains, or is contained in, an already-kept title. -/
def filter_duplicate_content (items : List ScrapedItem) : List ScrapedItem :=
  filter_duplicate_go items []

/-- Modelled from the claim's words (the specification side of C8): an item
is kept iff its lowercased title is neither a substring nor a superstring
of any previously kept item's lowercased title. -/
def keepSpec (kept : List ScrapedItem) (item : ScrapedItem) : Bool :=
  kept.all (fun k =>
    !(pyIn (pyLower item.title) (pyLower k.title)) &&
    !(pyIn (pyLower k.title) (pyLower item.title)))

/-- Reference recursion written from the claim's words: walk the batch,
keeping an item exactly when `keepSpec` accepts it against the kept-so-far
list (first-seen wins). -/
def dupSpecFilter (kept : List ScrapedItem) : List ScrapedItem → List ScrapedItem
  | [] => []
  | item :: rest =>
    if keepSpec kept item then item :: dupSpecFilter (item :: kept) rest
    else dupSpecFilter kept rest

/-- The executable duplicate check against the seen-title list coincides
with the negation of the claim-side acceptance predicate. -/
theorem dup_check_eq_not_keepSpec (kept : List ScrapedItem) (item : ScrapedItem) :
    dup_check (kept.map (fun k => pyLower k.title)) (pyLower item.title) =
      !(keepSpec kept item) := by
  induction kept with
  | nil => rfl
  | cons k ks ih =>
    simp only [dup_check, keepSpec, List.map_cons, List.any_cons, List.all_cons,
      Bool.not_and, Bool.not_or] at ih ⊢
    rw [ih]
    simp [dup_check, keepSpec, Bool.not_and]

/-- The filter loop run with the seen titles of a kept-so-far list computes
the claim-side reference recursion. -/
theorem filter_duplicate_go_eq_spec (items : List ScrapedItem) :
    ∀ kept : List ScrapedItem,
      filter_duplicate_go items (kept.map (fun k => pyLower k.title)) =
        dupSpecFilter kept items := by
  induction items with
  | nil => intro kept; rfl
  | cons item rest ih =>
    intro kept
    show (if !(dup_check (kept.map (fun k => pyLower k.title))
        (pyLower item.title)) then _ else _) = _
    rw [dup_check_eq_not_keepSpec, Bool.not_not]
    unfold dupSpecFilter
    by_cases h : keepSpec kept item
    · rw [if_pos h, if_pos h]
      have : pyLower item.title :: kept.map (fun k => pyLower k.title) =
          (item :: kept).map (fun k => pyLower k.title) := rfl
      rw [this, ih (item :: kept)]
    · rw [if_neg h, if_neg h]
      exact ih kept

/-- C8: the duplicate filter keeps an item iff its lowercased title is
neither a substring nor a superstring of any previously kept item's
lowercased title (first-seen wins); in particular, of the batch with titles
["Time vence jogo", "O time vence jogo hoje"] only the first item
survives. -/
theorem C8_duplicate_filter :
    (∀ items : List ScrapedItem,
      filter_duplicate_content items = dupSpecFilter [] items) ∧
    filter_duplicate_content
      [⟨"Time vence jogo", "c1"⟩, ⟨"O time vence jogo hoje", "c2"⟩] =
      [⟨"Time vence jogo", "c1"⟩] := by
  constructor
  · intro items
    exact filter_duplicate_go_eq_spec items []
  · decide

/-- Dropping continues forever once the empty title has been seen: with
`""` among the seen titles every title contains it, so every later item is
dropped and the seen set never changes. -/
theorem filter_duplicate_go_after_empty (items : List ScrapedItem) :
    ∀ seen : List String, "" ∈ seen → filter_duplicate_go items seen = [] := by
  induction items with
  | nil => intro seen _; rfl
  | cons item rest ih =>
    intro seen hmem
    have hdup : dup_check seen (pyLower item.title) = true := by
      unfold dup_check
      rw [List.any_eq_true]
      exact ⟨"", hmem, by
        have hin : pyIn "" (pyLower item.title) = true := by
          simp [pyIn, List.nil_infix]
        simp [hin]⟩
    simp only [filter_duplicate_go, hdup, Bool.not_true, Bool.false_eq_true,
      if_false]
    exact ih seen hmem

/-- C9: a batch whose first item's title lowercases to the empty string is
filtered to exactly that first item (every later item is dropped, since the
empty string is a substring of every title); and symmetrically, once any
title has been kept, an empty-titled item is always dropped. -/
theorem C9_empty_title_filter (item : ScrapedItem) (rest : List ScrapedItem)
    (h : pyLower item.title = "") :
    filter_duplicate_content (item :: rest) = [item] ∧
    (∀ (more : List ScrapedItem) (s : String) (seen : List String),
      filter_duplicate_go (item :: more) (s :: seen) =
        filter_duplicate_go more (s :: seen)) := by
  constructor
  · unfold filter_duplicate_content
    have hd : dup_check [] (pyLower item.title) = false := rfl
    simp only [filter_duplicate_go, hd, Bool.not_false, if_true]
    rw [h, filter_duplicate_go_after_empty rest [""] (List.mem_singleton.mpr rfl)]
  · intro more s seen
    have hdup : dup_check (s :: seen) (pyLower item.title) = true := by
      unfold dup_check
      rw [h, List.any_eq_true]
      refine ⟨s, List.mem_cons_self s seen, ?_⟩
      have hin : pyIn "" s = true := by simp [pyIn, List.nil_infix]
      simp [hin]
    simp only [filter_duplicate_go, hdup, Bool.not_true, Bool.false_eq_true,
      if_false]

/-- C9 witness: an empty-titled first item followed by a normal one. -/
theorem C9_empty_title_filter_witness :
    pyLower "" = "" ∧
    filter_duplicate_content
      [⟨"", "p"⟩, ⟨"Gol do Flamengo", "q"⟩] = [⟨"", "p"⟩] :=
  ⟨by decide, (C9_empty_title_filter ⟨"", "p"⟩ [⟨"Gol do Flamengo", "q"⟩]
    (by decide)).1⟩

/-! Embedding of `ai_writer/ab_testing.py`.  Python dicts with string keys
become association lists with dict semantics (`alookup` finds the entry,
`aupdate` replaces in place or appends, `aerase` models `del`); metric
floats become rationals.  `scipy.stats.chi2_contingency` is an external
library call: it is modelled by an oracle parameter `chi2` that returns
either a p-value or the library's raised error, so every theorem below
holds for an arbitrary oracle. -/

/-- Dict lookup: the value stored at a key, if present. -/
def alookup {α : Type} (k : String) : List (String × α) → Option α
  | [] => none
  | (k', v) :: rest => if k' = k then some v else alookup k rest

/-- Dict assignment `d[k] = v`: replace in place if the key exists, else
append. -/
def aupdate {α : Type} (k : String) (v : α) :
    List (String × α) → List (String × α)
  | [] => [(k, v)]
  | (k', v') :: rest =>
    if k' = k then (k', v) :: rest else (k', v') :: aupdate k v rest

/-- Dict deletion `del d[k]`. -/
def aerase {α : Type} (k : String) (l : List (String × α)) :
    List (String × α) :=
  l.filter (fun p => p.1 ≠ k)

/-- Python-level raised errors that the embedded code can surface. -/
inductive PyError where
  | keyError
  | indexError
  | valueError
deriving DecidableEq, Repr

/-- The oracle type standing for `scipy.stats.chi2_contingency` applied to a
2×2 table: given the four cells it yields the p-value, or the error raised
by the library (e.g. on a zero row/column sum in the expected
frequencies). -/
def Chi2 : Type := ℚ → ℚ → ℚ → ℚ → Except PyError ℚ

/-- The metrics dict passed to `add_result`; a key absent from the Python
dict contributes its `metrics.get(key, 0)` default of 0. -/
structure Metrics where
  clicks : ℚ
  shares : ℚ
  comments : ℚ
  time_spent : ℚ
deriving DecidableEq, Repr

/-- One variant's accumulators in `ABTest.results`. -/
structure VariantResult where
  impressions : ℕ
  clicks : ℚ
  shares : ℚ
  comments : ℚ
  avg_time_spent : ℚ
  total_time_spent : ℚ
deriving DecidableEq, Repr

/-- Per-variant zero accumulators, from the `ABTest.__init__`
comprehension. -/
def VariantResult.init : VariantResult := ⟨0, 0, 0, 0, 0, 0⟩

/-- An A/B test (`class ABTest`).  `start_time` is omitted: it only feeds
the `duration` stat, a wall-clock value irrelevant to the tracked state. -/
structure ABTest where
  name : String
  variants : List String
  min_samples : ℕ
  results : List (String × VariantResult)
deriving DecidableEq, Repr

/-- `ABTest.__init__`: one zeroed accumulator per variant; built with dict
insert-or-overwrite so a duplicated variant name collapses to one entry, as
in the Python dict comprehension. -/
def mkABTest (name : String) (variants : List String) (min_samples : ℕ) :
    ABTest :=
  { name := name
    variants := variants
    min_samples := min_samples
    results := variants.foldl (fun acc v => aupdate v VariantResult.init acc) [] }

/-- `ABTest.add_result`: no-op on an unknown variant, otherwise bump the
accumulators and recompute the running average. -/
def ABTest.add_result (t : ABTest) (variant : String) (metrics : Metrics) :
    ABTest :=
  match alookup variant t.results with
  | none => t
  | some r =>
    let impressions := r.impressions + 1
    let total_time := r.total_time_spent + metrics.time_spent
    let r' : VariantResult :=
      { impressions := impressions
        clicks := r.clicks + metrics.clicks
        shares := r.shares + metrics.shares
        comments := r.comments + metrics.comments
        total_time_spent := total_time
        avg_time_spent := total_time / (impressions : ℚ) }
    { t with results := aupdate variant r' t.results }

/-- One entry of `stats_data["variants"]`. -/
structure VariantData where
  impressions : ℕ
  ctr : ℚ
  engagement_rate : ℚ
  avg_time_spent : ℚ
deriving DecidableEq, Repr

/-- The `stats_data` dict returned by `ABTest.get_stats` (minus the
wall-clock `duration`); `status` is `none` when the Python dict carries no
`"status"` key at all. -/
structure StatsData where
  test_name : String
  total_samples : ℕ
  variants : List (String × VariantData)
  winner : Option String
  confidence : Option ℚ
  status : Option String
deriving DecidableEq, Repr

/-- Projection of one variant's accumulators into its stats entry,
including the source's redundant zero-impressions guards. -/
def variantData (r : VariantResult) : VariantData :=
  { impressions := r.impressions
    ctr := if r.impressions > 0 then r.clicks / (r.impressions : ℚ) else 0
    engagement_rate :=
      if r.impressions > 0 then (r.shares + r.comments) / (r.impressions : ℚ)
      else 0
    avg_time_spent := r.avg_time_spent }

/-- The variants with data (`continue` on zero impressions), in results
order. -/
def variantsData (t : ABTest) : List (String × VariantData) :=
  (t.results.filter (fun p => p.2.impressions ≠ 0)).map
    (fun p => (p.1, variantData p.2))

/-- Total impressions across all variants. -/
def totalSamples (t : ABTest) : ℕ :=
  (t.results.map (fun p => p.2.impressions)).sum

/-- The composite winner-selection score of `get_stats`. -/
def compositeScore (d : VariantData) : ℚ :=
  d.ctr * 0.4 + d.engagement_rate * 0.4 + (d.avg_time_spent / 300) * 0.2

/-- The winner-search fold of `get_stats`: strictly better score wins, so
the first-seen variant is kept on ties; the accumulator starts from
`(None, -1)`. -/
def bestVariant (vdata : List (String × VariantData)) : Option String × ℚ :=
  vdata.foldl (fun acc p =>
    if compositeScore p.2 > acc.2 then (some p.1, compositeScore p.2) else acc)
    (none, -1)

/-- Python truthiness of the `best_variant` value: `None` and the empty
string are falsy. -/
def pyTruthyStr : Option String → Bool
  | none => false
  | some s => decide (s ≠ "")

/-- `ABTest.get_stats`: per-variant stats, the sample-size gate, winner
search, and the chi-square significance step (via the `chi2` oracle).
Paths on which the Python code raises surface as `Except.error`. -/
def get_stats (chi2 : Chi2) (t : ABTest) : Except PyError StatsData :=
  let total := totalSamples t
  let vdata := variantsData t
  let base : StatsData :=
    { test_name := t.name
      total_samples := total
      variants := vdata
      winner := none
      confidence := none
      status := none }
  if total < t.min_samples then
    Except.ok { base with status := some "collecting_data" }
  else
    let best := bestVariant vdata
    if pyTruthyStr best.1 && decide (vdata.length > 1) then
      match t.variants with
      | [] => Except.error .indexError
        -- unreachable: with no variants there is no truthy winner
      | control :: _ =>
        match alookup control vdata with
        | none => Except.error .keyError
          -- `self.variants[0]` has zero impressions: Python raises KeyError
        | some control_data =>
          match best.1 with
          | none => Except.ok base  -- unreachable under the truthiness guard
          | some w =>
            match alookup w vdata with
            | none => Except.error .keyError
              -- unreachable: the winner was drawn from the variants dict
            | some test_data =>
              let control_engaged :=
                (control_data.impressions : ℚ) * control_data.engagement_rate
              let test_engaged :=
                (test_data.impressions : ℚ) * test_data.engagement_rate
              match chi2 control_engaged
                  ((control_data.impressions : ℚ) - control_engaged)
                  test_engaged
                  ((test_data.impressions : ℚ) - test_engaged) with
              | Except.error e => Except.error e
              | Except.ok p =>
                Except.ok { base with
                  winner := best.1
                  confidence := some ((1 - p) * 100)
                  status := some "completed" }
    else
      Except.ok base

/-- State of an `ABTestManager`. -/
structure ABTestManager where
  active_tests : List (String × ABTest)
  completed_tests : List (String × ABTest)
  test_history : List StatsData
deriving DecidableEq, Repr

/-- `ABTestManager.__init__`. -/
def mkABTestManager : ABTestManager := ⟨[], [], []⟩

/-- The dict returned by `ABTestManager.create_test`. -/
structure CreateResult where
  error : Option String
  status : Option String
  test_name : Option String
  variants : Option (List String)
  min_samples : Option ℕ
deriving DecidableEq, Repr

/-- The dict returned by `ABTestManager.record_result` (when it does not
raise). -/
structure RecordResult where
  error : Option String
  status : Option String
  test_stats : Option StatsData
deriving DecidableEq, Repr

/-- `ABTestManager.create_test`: reject a name that is currently active,
otherwise register a fresh test. -/
def create_test (m : ABTestManager) (name : String) (variants : List String)
    (min_samples : ℕ) : CreateResult × ABTestManager :=
  match alookup name m.active_tests with
  | some _ =>
    ({ error := some "Test already exists"
       status := none, test_name := none, variants := none
       min_samples := none }, m)
  | none =>
    let t := mkABTest name variants min_samples
    ({ error := none
       status := some "created"
       test_name := some name
       variants := some variants
       min_samples := some min_samples },
     { m with active_tests := aupdate name t m.active_tests })

/-- `ABTestManager.record_result`: not-found error for an inactive name;
otherwise update the test, recompute stats, and on status "completed" move
the test to `completed_tests` and append the stats snapshot to
`test_history`.  If `get_stats` raises, the exception propagates while the
already-applied `add_result` mutation persists, so the manager state is
returned alongside the raised error. -/
def record_result (chi2 : Chi2) (m : ABTestManager) (test_name variant : String)
    (metrics : Metrics) : Except PyError RecordResult × ABTestManager :=
  match alookup test_name m.active_tests with
  | none =>
    let notFound : RecordResult :=
      { error := some "Test not found", status := none, test_stats := none }
    (Except.ok notFound, m)
  | some t =>
    let t' := t.add_result variant metrics
    let m₁ := { m with active_tests := aupdate test_name t' m.active_tests }
    match get_stats chi2 t' with
    | Except.error e => (Except.error e, m₁)
    | Except.ok stats =>
      let recorded : RecordResult :=
        { error := none, status := some "recorded", test_stats := some stats }
      if stats.status = some "completed" then
        (Except.ok recorded,
         { m₁ with
           completed_tests := aupdate test_name t' m₁.completed_tests
           active_tests := aerase test_name m₁.active_tests
           test_history := m₁.test_history ++ [stats] })
      else
        (Except.ok recorded, m₁)

/-- The p-value oracle used for concrete runs: always returns 0 (any value
in [0,1] serves; the claims below never depend on it). -/
def chiZero : Chi2 := fun _ _ _ _ => Except.ok 0

/-- Looking up one key after updating another is unaffected. -/
theorem alookup_aupdate_ne {α : Type} (k k' : String) (v : α)
    (l : List (String × α)) (h : k' ≠ k) :
    alookup k (aupdate k' v l) = alookup k l := by
  induction l with
  | nil => simp [aupdate, alookup, h]
  | cons p rest ih =>
    by_cases hp : p.1 = k'
    · simp [aupdate, alookup, hp, h, hp ▸ h]
    · simp only [aupdate]
      rw [if_neg hp]
      by_cases hk : p.1 = k
      · simp [alookup, hk]
      · simp [alookup, hk, ih]

/-- Updating a key makes it present with the new value. -/
theorem alookup_aupdate_self {α : Type} (k : String) (v : α)
    (l : List (String × α)) : alookup k (aupdate k v l) = some v := by
  induction l with
  | nil => simp [aupdate, alookup]
  | cons p rest ih =>
    by_cases hp : p.1 = k
    · simp [aupdate, alookup, hp]
    · simp [aupdate, alookup, hp, ih]

/-- Looking up one key after erasing another is unaffected. -/
theorem alookup_aerase_ne {α : Type} (k k' : String)
    (l : List (String × α)) (h : k' ≠ k) :
    alookup k (aerase k' l) = alookup k l := by
  induction l with
  | nil => rfl
  | cons p rest ih =>
    simp only [aerase, List.filter_cons] at ih ⊢
    by_cases hp : p.1 = k'
    · have hk : ¬ p.1 = k := by rw [hp]; exact h
      rw [if_neg (by simp [hp]), ih]
      simp [alookup, hk]
    · rw [if_pos (by simp [hp])]
      by_cases hk : p.1 = k
      · simp [alookup, hk]
      · simp only [alookup]
        rw [if_neg hk, if_neg hk]
        simpa using ih

/-- An erased key is gone. -/
theorem alookup_aerase_self {α : Type} (k : String) (l : List (String × α)) :
    alookup k (aerase k l) = none := by
  induction l with
  | nil => rfl
  | cons p rest ih =>
    by_cases hp : p.1 = k
    · simpa [aerase, alookup, hp] using ih
    · simpa [aerase, alookup, hp] using ih

/-- C4 (amended: the status key is absent, not "collecting_data"): whenever
the total impressions reach `min_samples` but fewer than 2 variants have
impressions, `get_stats` returns normally with `winner = None` and with no
`status` key at all — the completion guard `best_variant and len(...) > 1`
fails, and no branch sets a status. -/
theorem C4_no_winner_below_two_variants (chi2 : Chi2) (t : ABTest)
    (hmin : t.min_samples ≤ totalSamples t)
    (hlt : (variantsData t).length < 2) :
    get_stats chi2 t = Except.ok
      { test_name := t.name
        total_samples := totalSamples t
        variants := variantsData t
        winner := none
        confidence := none
        status := none } := by
  have hGuard : (pyTruthyStr (bestVariant (variantsData t)).1 &&
      decide ((variantsData t).length > 1)) = false := by
    have hdec : decide ((variantsData t).length > 1) = false := by
      simp only [decide_eq_false_iff_not]
      omega
    simp [hdec]
  simp only [get_stats]
  rw [if_neg (Nat.not_lt.mpr hmin), hGuard]
  simp

/-- C4 counterexample to the claim as stated: a test with `min_samples = 1`
and a single result on variant "a" has reached its sample threshold with
only one variant holding data, and `get_stats` then returns a dict with
`winner = None` but with NO `"status"` key — not the claimed
`"collecting_data"` status. -/
theorem C4_counterexample_status_absent :
    ((mkABTest "t" ["a", "b"] 1).add_result "a" ⟨0, 0, 0, 0⟩).min_samples ≤
      totalSamples ((mkABTest "t" ["a", "b"] 1).add_result "a" ⟨0, 0, 0, 0⟩) ∧
    (variantsData ((mkABTest "t" ["a", "b"] 1).add_result "a" ⟨0, 0, 0, 0⟩)).length
      < 2 ∧
    get_stats chiZero ((mkABTest "t" ["a", "b"] 1).add_result "a" ⟨0, 0, 0, 0⟩) =
      Except.ok
        { test_name := "t"
          total_samples := 1
          variants := [("a", ⟨1, 0, 0, 0⟩)]
          winner := none
          confidence := none
          status := none } := by
  refine ⟨?_, ?_, ?_⟩ <;>
    norm_num [mkABTest, ABTest.add_result, alookup, aupdate, VariantResult.init,
      get_stats, totalSamples, variantsData, variantData, bestVariant,
      compositeScore, pyTruthyStr, chiZero]

/-- C4 witness for the amended theorem: the same single-variant test. -/
theorem C4_no_winner_below_two_variants_witness :
    ((mkABTest "t" ["a", "b"] 1).add_result "a" ⟨0, 0, 0, 0⟩).min_samples ≤
      totalSamples ((mkABTest "t" ["a", "b"] 1).add_result "a" ⟨0, 0, 0, 0⟩) ∧
    (variantsData ((mkABTest "t" ["a", "b"] 1).add_result "a" ⟨0, 0, 0, 0⟩)).length
      < 2 ∧
    get_stats chiZero ((mkABTest "t" ["a", "b"] 1).add_result "a" ⟨0, 0, 0, 0⟩) =
      Except.ok
        { test_name := "t"
          total_samples :=
            totalSamples ((mkABTest "t" ["a", "b"] 1).add_result "a" ⟨0, 0, 0, 0⟩)
          variants :=
            variantsData ((mkABTest "t" ["a", "b"] 1).add_result "a" ⟨0, 0, 0, 0⟩)
          winner := none
          confidence := none
          status := none } := by
  have h1 : ((mkABTest "t" ["a", "b"] 1).add_result "a" ⟨0, 0, 0, 0⟩).min_samples ≤
      totalSamples ((mkABTest "t" ["a", "b"] 1).add_result "a" ⟨0, 0, 0, 0⟩) := by
    norm_num [mkABTest, ABTest.add_result, alookup, aupdate, VariantResult.init,
      totalSamples]
  have h2 : (variantsData
      ((mkABTest "t" ["a", "b"] 1).add_result "a" ⟨0, 0, 0, 0⟩)).length < 2 := by
    norm_num [mkABTest, ABTest.add_result, alookup, aupdate, VariantResult.init,
      variantsData, variantData]
  exact ⟨h1, h2, C4_no_winner_below_two_variants chiZero _ h1 h2⟩

/-- C10: `create_test` rejects a name — returning the "Test already exists"
error and leaving the manager untouched — exactly when the name is in
`active_tests`; a name found at most in `completed_tests` is accepted with
status "created" and registered as a fresh active test. -/
theorem C10_create_test_checks_active_only (m : ABTestManager) (name : String)
    (variants : List String) (ms : ℕ) :
    ((create_test m name variants ms).1.error = some "Test already exists" ↔
      (alookup name m.active_tests).isSome) ∧
    ((alookup name m.active_tests).isSome →
      create_test m name variants ms =
        ({ error := some "Test already exists", status := none,
           test_name := none, variants := none, min_samples := none }, m)) ∧
    (alookup name m.active_tests = none →
      create_test m name variants ms =
        ({ error := none, status := some "created", test_name := some name,
           variants := some variants, min_samples := some ms },
         { m with active_tests :=
             aupdate name (mkABTest name variants ms) m.active_tests })) := by
  cases h : alookup name m.active_tests with
  | none => simp [create_test, h]
  | some t => simp [create_test, h]

/-- C10 witness: a manager whose only trace of "t" is in `completed_tests`
accepts `create_test "t"` again. -/
theorem C10_create_test_checks_active_only_witness :
    alookup "t" (ABTestManager.mk [] [("t", mkABTest "t" ["a"] 1)]
      []).active_tests = none ∧
    (create_test (ABTestManager.mk [] [("t", mkABTest "t" ["a"] 1)] [])
      "t" ["a"] 1).1.status = some "created" := by
  refine ⟨rfl, ?_⟩
  have h := (C10_create_test_checks_active_only
    (ABTestManager.mk [] [("t", mkABTest "t" ["a"] 1)] []) "t" ["a"] 1).2.2 rfl
  rw [h]

/-- A sequence of `record_result` calls applied in order, keeping the
evolving manager state. -/
def applyRecords (chi2 : Chi2) :
    ABTestManager → List (String × String × Metrics) → ABTestManager
  | m, [] => m
  | m, c :: cs => applyRecords chi2 (record_result chi2 m c.1 c.2.1 c.2.2).2 cs

/-- A name absent from `active_tests` stays absent across any
`record_result` call, and its `completed_tests` entry is untouched
(`record_result` never adds to `active_tests`). -/
theorem record_result_absent_invariant (chi2 : Chi2) (m : ABTestManager)
    (name n v : String) (mets : Metrics)
    (habs : alookup name m.active_tests = none) :
    alookup name (record_result chi2 m n v mets).2.active_tests = none ∧
    alookup name (record_result chi2 m n v mets).2.completed_tests =
      alookup name m.completed_tests := by
  by_cases hn : n = name
  · subst hn
    simp [record_result, habs]
  · cases h : alookup n m.active_tests with
    | none => simp [record_result, h, habs]
    | some t =>
      cases hs : get_stats chi2 (t.add_result v mets) with
      | error e =>
        simp [record_result, h, hs, alookup_aupdate_ne _ _ _ _ hn, habs]
      | ok stats =>
        by_cases hc : stats.status = some "completed"
        · simp [record_result, h, hs, hc, alookup_aerase_ne _ _ _ hn,
            alookup_aupdate_ne _ _ _ _ hn, habs]
        · simp [record_result, h, hs, hc, alookup_aupdate_ne _ _ _ _ hn, habs]

/-- The invariant of `record_result_absent_invariant` carried over a whole
call sequence. -/
theorem applyRecords_absent_invariant (chi2 : Chi2) (name : String) :
    ∀ (trace : List (String × String × Metrics)) (m : ABTestManager),
      alookup name m.active_tests = none →
      alookup name (applyRecords chi2 m trace).active_tests = none ∧
      alookup name (applyRecords chi2 m trace).completed_tests =
        alookup name m.completed_tests := by
  intro trace
  induction trace with
  | nil => intro m h; exact ⟨h, rfl⟩
  | cons c cs ih =>
    intro m h
    have step := record_result_absent_invariant chi2 m name c.1 c.2.1 c.2.2 h
    have rec := ih _ step.1
    exact ⟨rec.1, rec.2.trans step.2⟩

/-- C7 (amended: provided the name is not re-registered via `create_test`,
which after completion accepts the same name again): a `record_result` call
on an active test whose updated stats report status "completed" moves the
test out of `active_tests` into `completed_tests` and appends its stats
snapshot to `test_history` exactly once; and from any state in which the
name is not active, any further sequence of `record_result` calls leaves
the name inactive and its completed entry untouched, with every
`record_result` for that name returning the not-found error and changing
nothing. -/
theorem C7_completion_moves_test_once :
    (∀ (chi2 : Chi2) (m : ABTestManager) (name : String) (t : ABTest)
        (variant : String) (metrics : Metrics) (stats : StatsData),
      alookup name m.active_tests = some t →
      get_stats chi2 (t.add_result variant metrics) = Except.ok stats →
      stats.status = some "completed" →
      (record_result chi2 m name variant metrics).1 =
        Except.ok
          { error := none
            status := some "recorded"
            test_stats := some stats } ∧
      alookup name (record_result chi2 m name variant metrics).2.active_tests =
        none ∧
      alookup name
          (record_result chi2 m name variant metrics).2.completed_tests =
        some (t.add_result variant metrics) ∧
      (record_result chi2 m name variant metrics).2.test_history =
        m.test_history ++ [stats]) ∧
    (∀ (chi2 : Chi2) (m : ABTestManager) (name : String),
      alookup name m.active_tests = none →
      ∀ (trace : List (String × String × Metrics)) (v : String)
        (mets : Metrics),
        alookup name (applyRecords chi2 m trace).active_tests = none ∧
        alookup name (applyRecords chi2 m trace).completed_tests =
          alookup name m.completed_tests ∧
        record_result chi2 (applyRecords chi2 m trace) name v mets =
          (Except.ok
            { error := some "Test not found"
              status := none
              test_stats := none },
           applyRecords chi2 m trace)) := by
  constructor
  · intro chi2 m name t variant metrics stats h1 h2 h3
    refine ⟨?_, ?_, ?_, ?_⟩ <;>
      simp [record_result, h1, h2, h3, alookup_aerase_self,
        alookup_aupdate_self]
  · intro chi2 m name habs trace v mets
    have hinv := applyRecords_absent_invariant chi2 name trace m habs
    exact ⟨hinv.1, hinv.2, by simp [record_result, hinv.1]⟩

/-- The "t" test after two results on variant "a" (one share, then
nothing): one result short of its three-sample threshold. -/
def tMid : ABTest :=
  { name := "t"
    variants := ["a", "b"]
    min_samples := 3
    results := [("a", ⟨2, 0, 1, 0, 0, 0⟩), ("b", ⟨0, 0, 0, 0, 0, 0⟩)] }

/-- A manager holding exactly `tMid` as its active test. -/
def mMid : ABTestManager := ⟨[("t", tMid)], [], []⟩

/-- The stats of `tMid` right after the completing third result (a share on
variant "b"): threshold met, two variants with data, winner "b". -/
def statsDone : StatsData :=
  { test_name := "t"
    total_samples := 3
    variants := [("a", ⟨2, 0, 1/2, 0⟩), ("b", ⟨1, 0, 1, 0⟩)]
    winner := some "b"
    confidence := some 100
    status := some "completed" }

/-- Evaluation of the completing `get_stats` call on `tMid` after the third
result. -/
theorem get_stats_tMid_done :
    get_stats chiZero (tMid.add_result "b" ⟨0, 1, 0, 0⟩) =
      Except.ok statsDone := by
  simp [tMid, statsDone, ABTest.add_result, alookup, aupdate, get_stats,
    totalSamples, variantsData, variantData, bestVariant, compositeScore,
    pyTruthyStr, chiZero]
  norm_num
  simp

/-- C7 witness: the completion step applied to `mMid`, and the not-found
persistence applied to a fresh manager. -/
theorem C7_completion_moves_test_once_witness :
    (alookup "t" mMid.active_tests = some tMid ∧
     get_stats chiZero (tMid.add_result "b" ⟨0, 1, 0, 0⟩) =
       Except.ok statsDone ∧
     statsDone.status = some "completed" ∧
     alookup "t"
       (record_result chiZero mMid "t" "b" ⟨0, 1, 0, 0⟩).2.active_tests =
       none) ∧
    (alookup "x" mkABTestManager.active_tests = none ∧
     record_result chiZero
         (applyRecords chiZero mkABTestManager [("t", "a", ⟨0, 0, 0, 0⟩)])
         "x" "a" ⟨0, 0, 0, 0⟩ =
       (Except.ok
         { error := some "Test not found"
           status := none
           test_stats := none },
        applyRecords chiZero mkABTestManager [("t", "a", ⟨0, 0, 0, 0⟩)])) := by
  have h1 : alookup "t" mMid.active_tests = some tMid := by
    simp [mMid, alookup]
  have h2 := get_stats_tMid_done
  have h3 : statsDone.status = some "completed" := rfl
  exact ⟨⟨h1, h2, h3,
      (C7_completion_moves_test_once.1 chiZero mMid "t" tMid "b" ⟨0, 1, 0, 0⟩
        statsDone h1 h2 h3).2.1⟩,
    ⟨rfl, (C7_completion_moves_test_once.2 chiZero mkABTestManager "x" rfl
      [("t", "a", ⟨0, 0, 0, 0⟩)] "a" ⟨0, 0, 0, 0⟩).2.2⟩⟩

/-- C7 counterexample to the claim as stated: after the "t" test completes
and is moved out of `active_tests`, `create_test` accepts the name "t"
again (it checks only `active_tests`), and the next `record_result` for
"t" returns status "recorded" with no error — not the claimed not-found
error. -/
theorem C7_counterexample_recreated_name :
    (let m1 := (create_test mkABTestManager "t" ["a", "b"] 3).2
     let m2 := (record_result chiZero m1 "t" "a" ⟨0, 1, 0, 0⟩).2
     let m3 := (record_result chiZero m2 "t" "a" ⟨0, 0, 0, 0⟩).2
     let m4 := (record_result chiZero m3 "t" "b" ⟨0, 1, 0, 0⟩).2
     alookup "t" m4.active_tests = none ∧
     (alookup "t" m4.completed_tests).isSome = true ∧
     (create_test m4 "t" ["a", "b"] 3).1.status = some "created" ∧
     (record_result chiZero (create_test m4 "t" ["a", "b"] 3).2 "t" "a"
         ⟨0, 0, 0, 0⟩).1.map RecordResult.error = Except.ok none ∧
     (record_result chiZero (create_test m4 "t" ["a", "b"] 3).2 "t" "a"
         ⟨0, 0, 0, 0⟩).1.map RecordResult.status =
       Except.ok (some "recorded")) := by
  have hm1 : (create_test mkABTestManager "t" ["a", "b"] 3).2 =
      ⟨[("t", mkABTest "t" ["a", "b"] 3)], [], []⟩ := by
    simp [create_test, mkABTestManager, alookup, aupdate]
  have ht1 : (mkABTest "t" ["a", "b"] 3).add_result "a" ⟨0, 1, 0, 0⟩ =
      ⟨"t", ["a", "b"], 3,
        [("a", ⟨1, 0, 1, 0, 0, 0⟩), ("b", ⟨0, 0, 0, 0, 0, 0⟩)]⟩ := by
    simp [mkABTest, ABTest.add_result, alookup, aupdate, VariantResult.init]
  have hs1 : get_stats chiZero
      (⟨"t", ["a", "b"], 3,
        [("a", ⟨1, 0, 1, 0, 0, 0⟩), ("b", ⟨0, 0, 0, 0, 0, 0⟩)]⟩ : ABTest) =
      Except.ok ⟨"t", 1, [("a", ⟨1, 0, 1, 0⟩)], none, none,
        some "collecting_data"⟩ := by
    simp [get_stats, totalSamples, variantsData, variantData, chiZero]
  have hm2 : (record_result chiZero ⟨[("t", mkABTest "t" ["a", "b"] 3)], [], []⟩
      "t" "a" ⟨0, 1, 0, 0⟩).2 =
      ⟨[("t", ⟨"t", ["a", "b"], 3,
        [("a", ⟨1, 0, 1, 0, 0, 0⟩), ("b", ⟨0, 0, 0, 0, 0, 0⟩)]⟩)], [], []⟩ := by
    simp [record_result, alookup, aupdate, ht1, hs1]
  have ht2 : (⟨"t", ["a", "b"], 3,
      [("a", ⟨1, 0, 1, 0, 0, 0⟩), ("b", ⟨0, 0, 0, 0, 0, 0⟩)]⟩ : ABTest).add_result
      "a" ⟨0, 0, 0, 0⟩ = tMid := by
    simp [tMid, ABTest.add_result, alookup, aupdate]
  have hs2 : get_stats chiZero tMid =
      Except.ok ⟨"t", 2, [("a", ⟨2, 0, 1/2, 0⟩)], none, none,
        some "collecting_data"⟩ := by
    simp [tMid, get_stats, totalSamples, variantsData, variantData, chiZero]
  have hm3 : (record_result chiZero ⟨[("t", ⟨"t", ["a", "b"], 3,
      [("a", ⟨1, 0, 1, 0, 0, 0⟩), ("b", ⟨0, 0, 0, 0, 0, 0⟩)]⟩)], [], []⟩
      "t" "a" ⟨0, 0, 0, 0⟩).2 = ⟨[("t", tMid)], [], []⟩ := by
    simp [record_result, alookup, aupdate, ht2, hs2]
  have hm4 : (record_result chiZero ⟨[("t", tMid)], [], []⟩
      "t" "b" ⟨0, 1, 0, 0⟩).2 =
      ⟨[], [("t", tMid.add_result "b" ⟨0, 1, 0, 0⟩)], [statsDone]⟩ := by
    simp [record_result, alookup, aupdate, aerase, get_stats_tMid_done,
      statsDone]
  have hm5 : (create_test ⟨[], [("t", tMid.add_result "b" ⟨0, 1, 0, 0⟩)],
      [statsDone]⟩ "t" ["a", "b"] 3) =
      (⟨none, some "created", some "t", some ["a", "b"], some 3⟩,
       ⟨[("t", mkABTest "t" ["a", "b"] 3)],
        [("t", tMid.add_result "b" ⟨0, 1, 0, 0⟩)], [statsDone]⟩) := by
    simp [create_test, alookup, aupdate]
  have ht6 : (mkABTest "t" ["a", "b"] 3).add_result "a" ⟨0, 0, 0, 0⟩ =
      ⟨"t", ["a", "b"], 3,
        [("a", ⟨1, 0, 0, 0, 0, 0⟩), ("b", ⟨0, 0, 0, 0, 0, 0⟩)]⟩ := by
    simp [mkABTest, ABTest.add_result, alookup, aupdate, VariantResult.init]
  have hs6 : get_stats chiZero
      (⟨"t", ["a", "b"], 3,
        [("a", ⟨1, 0, 0, 0, 0, 0⟩), ("b", ⟨0, 0, 0, 0, 0, 0⟩)]⟩ : ABTest) =
      Except.ok ⟨"t", 1, [("a", ⟨1, 0, 0, 0⟩)], none, none,
        some "collecting_data"⟩ := by
    simp [get_stats, totalSamples, variantsData, variantData, chiZero]
  simp only [hm1, hm2, hm3, hm4, hm5]
  simp [record_result, alookup, aupdate, ht6, hs6, Except.map]

end SoGolasso
